import Mathlib

/-!
Shallow embedding of the instance-lifecycle controller of the
service-catalog broker.

The embedded code is the complete controller variant in
`src/unnamed/part_000` (both copies in that file are behaviourally
identical for everything proved here), together with the database
provisioning helpers in
`src/contrib/pkg/broker/user_provided/controller/controller_pod.go`,
which the controller reaches through `doDBProvision` / `doDBDeprovision`
/ `doDBBind`.  The older historical variant
`src/contrib/pkg/broker/user_provided/controller/controller.go`
(no duplicate check on create, unimplemented get, bind returning the
stored credential) is superseded by `part_000` and is not the embedded
authority; divergences are noted where they matter.

Outbound cluster calls are modelled by an explicit environment
(`KubeEnv`) giving the outcome of each Kubernetes API call, and every
operation additionally returns the list of cluster calls it performed,
so that "no provisioning call is made" and "the rollback deletes the
secret" are provable statements.
-/

namespace ServiceCatalogCtrl

/-- Go error values, modelled as their message strings. -/
abbrev GoErr := String

/-- Result of a Go call: normal return, error return, or a runtime panic. -/
inductive Outcome (α : Type) where
  | ok (a : α)
  | fail (e : GoErr)
  | panicked (msg : String)
  deriving DecidableEq, Repr

/-- Whether an outcome is a runtime panic. -/
def Outcome.isPanicked {α : Type} : Outcome α → Bool
  | .panicked _ => true
  | _ => false

/-- A credential value (`brokerapi.Credential` maps strings to
arbitrary values; the controller stores strings and int32 ports). -/
inductive CredVal where
  | str (s : String)
  | int (n : Int)
  deriving DecidableEq, Repr

/-- A credential map, as the association list of its entries. -/
abbrev Credential := List (String × CredVal)

/-- `userProvidedServiceInstance` (part_000 lines 37-42 / 273-278). -/
structure ServiceInstance where
  Id : String
  Namespace : String
  ServiceID : String
  Credential : Option Credential
  deriving DecidableEq, Repr

/-- The controller's `instanceMap`, as an association list keyed by
instance id (Go `map[string]*userProvidedServiceInstance`). -/
abbrev InstanceMap := List (String × ServiceInstance)

/-- Go map read `m[id]`. -/
def mapLookup : InstanceMap → String → Option ServiceInstance
  | [], _ => none
  | (k, v) :: t, id => if k = id then some v else mapLookup t id

/-- Go map write `m[id] = v` at a key known to be absent. -/
def mapInsert (m : InstanceMap) (id : String) (v : ServiceInstance) : InstanceMap :=
  (id, v) :: m

/-- Go `delete(m, id)`. -/
def mapErase : InstanceMap → String → InstanceMap
  | [], _ => []
  | (k, v) :: t, id => if k = id then mapErase t id else (k, v) :: mapErase t id

/-- The in-place update `m[id].Credential = cred` performed by `Bind`. -/
def mapSetCred : InstanceMap → String → Option Credential → InstanceMap
  | [], _, _ => []
  | (k, v) :: t, id, cred =>
    if k = id then (k, { v with Credential := cred }) :: t
    else (k, v) :: mapSetCred t id cred

/-- `serviceidUserProvided` (part_000 line 50/291). -/
def serviceidUserProvided : String := "4f6e6cf6-ffdd-425f-a2c7-3c9258ad2468"

/-- `serviceidDatabasePod` (part_000 line 51/293). -/
def serviceidDatabasePod : String := "database-1"

/-- Network data of a pod returned by a pod-list query. -/
structure PodInfo where
  podIP : String
  containerPort : Int
  deriving DecidableEq, Repr

/-- Environment giving the outcome of each outbound Kubernetes API
call; the controller's behaviour is a function of this environment. -/
structure KubeEnv where
  inClusterConfig : Except GoErr Unit
  newForConfig : Except GoErr Unit
  secretCreate : String → String → Except GoErr Unit
  podCreate : String → String → Except GoErr Unit
  secretDelete : String → String → Except GoErr Unit
  podsDeleteCollection : String → String → Except GoErr Unit
  secretsDeleteCollection : String → String → Except GoErr Unit
  podsList : String → String → Except GoErr (List PodInfo)

/-- A record of one outbound Kubernetes API call that was performed. -/
inductive KubeCall where
  | secretCreate (ns name : String)
  | podCreate (ns name : String)
  | secretDelete (ns name : String)
  | podsDeleteCollection (ns sel : String)
  | secretsDeleteCollection (ns sel : String)
  | podsList (ns sel : String)
  deriving DecidableEq, Repr

/-- `getKubeClient` (controller_pod.go lines 85-95): PANICS when
`rest.InClusterConfig()` fails; a `NewForConfig` failure is returned
as an ordinary error. -/
def getKubeClient (env : KubeEnv) : Outcome Unit :=
  match env.inClusterConfig with
  | .error e => .panicked e
  | .ok _ =>
    match env.newForConfig with
    | .error e => .fail e
    | .ok _ => .ok ()

/-- Secret name `"db-" + instanceID + "-secret"` (controller_pod.go line 103). -/
def dbSecretName (instanceID : String) : String := "db-" ++ instanceID ++ "-secret"

/-- Pod name `"mongo-" + instanceID` (controller_pod.go line 108). -/
def dbPodName (instanceID : String) : String := "mongo-" ++ instanceID

/-- Label selector `INST_RESOURCE_LABEL_NAME + "=" + instanceID`. -/
def instLabelSelector (instanceID : String) : String := "instanceId=" ++ instanceID

/-- `provisionDBInstance` (controller_pod.go lines 21-44), the body of
the controller's `doDBProvision` step.  Faithful points: the client is
obtained before the namespace is validated; an empty namespace is
rejected before any secret/pod creation call; a failed secret creation
returns `("", nil)` — no error — after logging (line 34); a failed pod
creation deletes the just-created secret (ignoring the deletion's own
result) and returns the pod error. -/
def provisionDBInstance (env : KubeEnv) (instanceID ns : String) :
    Outcome String × List KubeCall :=
  match getKubeClient env with
  | .panicked m => (.panicked m, [])
  | .fail e => (.fail e, [])
  | .ok _ =>
    if ns = "" then
      (.fail "Namespace not detected in Request", [])
    else
      match env.secretCreate ns (dbSecretName instanceID) with
      | .error _ => (.ok "", [.secretCreate ns (dbSecretName instanceID)])
      | .ok _ =>
        match env.podCreate ns (dbPodName instanceID) with
        | .error e =>
          (.fail e,
            [.secretCreate ns (dbSecretName instanceID),
             .podCreate ns (dbPodName instanceID),
             .secretDelete ns (dbSecretName instanceID)])
        | .ok _ =>
          (.ok ns,
            [.secretCreate ns (dbSecretName instanceID),
             .podCreate ns (dbPodName instanceID)])

/-- `deprovisionDBInstance` (controller_pod.go lines 46-68), the body of
the controller's `doDBDeprovision` step: deletes the instance's pods,
then its secrets, stopping at the first error. -/
def deprovisionDBInstance (env : KubeEnv) (instanceID ns : String) :
    Outcome Unit × List KubeCall :=
  match getKubeClient env with
  | .panicked m => (.panicked m, [])
  | .fail e => (.fail e, [])
  | .ok _ =>
    match env.podsDeleteCollection ns (instLabelSelector instanceID) with
    | .error e => (.fail e, [.podsDeleteCollection ns (instLabelSelector instanceID)])
    | .ok _ =>
      match env.secretsDeleteCollection ns (instLabelSelector instanceID) with
      | .error e =>
        (.fail e,
          [.podsDeleteCollection ns (instLabelSelector instanceID),
           .secretsDeleteCollection ns (instLabelSelector instanceID)])
      | .ok _ =>
        (.ok (),
          [.podsDeleteCollection ns (instLabelSelector instanceID),
           .secretsDeleteCollection ns (instLabelSelector instanceID)])

/-- The controller's `doDBBind` step: a pod-list query for the
instance's pod followed by reading `Items[0]`'s IP and container
port (controller_pod.go `getInstancePodIP` lines 70-83, identical
structure in `getHeketiPodIP`, part_001 lines 105-117).  Indexing
`Items[0]` on an empty result list is a Go index-out-of-range panic. -/
def doDBBind (env : KubeEnv) (instanceID ns : String) :
    Outcome (String × Int) × List KubeCall :=
  match getKubeClient env with
  | .panicked m => (.panicked m, [])
  | .fail e => (.fail e, [])
  | .ok _ =>
    match env.podsList ns (instLabelSelector instanceID) with
    | .error e => (.fail e, [.podsList ns (instLabelSelector instanceID)])
    | .ok [] => (.panicked "index out of range", [.podsList ns (instLabelSelector instanceID)])
    | .ok (p :: _) => (.ok (p.podIP, p.containerPort), [.podsList ns (instLabelSelector instanceID)])

/-- The controller's `doDBUnbind` step, a stub performing no cluster
call and always succeeding (`doHeketiUnbind`, part_001 lines 100-102;
likewise `doNXUnbind`). -/
def doDBUnbind : String × Option GoErr := ("DB Unbind not implemented.", none)

/-- `brokerapi.CreateServiceInstanceRequest.ContextProfile`. -/
structure ContextProfile where
  Namespace : String
  deriving DecidableEq, Repr

/-- The fields of `brokerapi.CreateServiceInstanceRequest` read by the
controller. -/
structure CreateServiceInstanceRequest where
  ServiceID : String
  ContextProfile : ContextProfile
  deriving DecidableEq, Repr

/-- `brokerapi.BindingRequest`; the controller reads none of its fields. -/
structure BindingRequest where
  deriving DecidableEq, Repr

/-- `errNoSuchInstance` (part_000 lines 29-35). -/
def errNoSuchInstance (instanceID : String) : GoErr :=
  "No such instance with ID " ++ instanceID

/-- The duplicate-id error of `CreateServiceInstance` (part_000 line 108). -/
def errAlreadyExists (id : String) : GoErr :=
  "Instance \"" ++ id ++ "\" already exists"

/-- The wrapped deprovision error of `RemoveServiceInstance`
(part_000 line 160). -/
def errDeprovision (id : String) (e : GoErr) : GoErr :=
  "Error deprovisioning instance \"" ++ id ++ "\", " ++ e

/-- `brokerapi.ServicePlan` fields used by `Catalog`. -/
structure ServicePlan where
  Name : String
  ID : String
  Description : String
  Free : Bool
  deriving DecidableEq, Repr

/-- `brokerapi.Service` fields used by `Catalog`. -/
structure Service where
  Name : String
  ID : String
  Description : String
  Plans : List ServicePlan
  Bindable : Bool
  deriving DecidableEq, Repr

/-- `brokerapi.Catalog`. -/
structure Catalog where
  Services : List Service
  deriving DecidableEq, Repr

/-- `Catalog` (part_000 lines 62-95): a static two-service catalog,
always returned successfully. -/
def catalog : Outcome Catalog :=
  .ok
    { Services :=
        [ { Name := "user-provided-service"
            ID := serviceidUserProvided
            Description := "A user provided service"
            Plans :=
              [ { Name := "default"
                  ID := "86064792-7ea2-467b-af93-ac9694d96d52"
                  Description := "Sample plan description"
                  Free := true } ]
            Bindable := true },
          { Name := "database-service"
            ID := serviceidDatabasePod
            Description := "A Hacky little pod service."
            Plans :=
              [ { Name := "default"
                  ID := "default"
                  Description := "There is only one, and this is it."
                  Free := true } ]
            Bindable := true } ] }

/-- `CreateServiceInstance` (part_000 lines 97-129 / 344-375): under the
write lock, reject a duplicate id; otherwise build the new record (no
credential is stored at creation), run the per-type provisioning switch
(`user-provided`: nothing; `database-pod`: `doDBProvision`; any other
service id falls through the switch with no default case), and insert
the record only when provisioning did not return an error. -/
def createServiceInstance (env : KubeEnv) (m : InstanceMap) (id : String)
    (req : CreateServiceInstanceRequest) :
    Outcome Unit × InstanceMap × List KubeCall :=
  match mapLookup m id with
  | some _ => (.fail (errAlreadyExists id), m, [])
  | none =>
    let newInstance : ServiceInstance :=
      { Id := id
        Namespace := req.ContextProfile.Namespace
        ServiceID := req.ServiceID
        Credential := none }
    if newInstance.ServiceID = serviceidUserProvided then
      (.ok (), mapInsert m id newInstance, [])
    else if newInstance.ServiceID = serviceidDatabasePod then
      match provisionDBInstance env id newInstance.Namespace with
      | (.panicked msg, tr) => (.panicked msg, m, tr)
      | (.fail e, tr) => (.fail e, m, tr)
      | (.ok _, tr) => (.ok (), mapInsert m id newInstance, tr)
    else
      (.ok (), mapInsert m id newInstance, [])

/-- `GetServiceInstance` (part_000 lines 131-143 / 377-390): under the
read lock, unknown ids get `errNoSuchInstance`; otherwise the stored
record is returned (the Go code returns its JSON serialization; the
embedding returns the record itself, which the serialization is a
function of).  The registry is returned unchanged. -/
def getServiceInstance (m : InstanceMap) (id : String) :
    Outcome ServiceInstance × InstanceMap :=
  match mapLookup m id with
  | none => (.fail (errNoSuchInstance id), m)
  | some inst => (.ok inst, m)

/-- `RemoveServiceInstance` (part_000 lines 145-168 / 392-417): under
the write lock, unknown ids get `errNoSuchInstance`; a `database-pod`
instance is deprovisioned first and a deprovision failure returns the
wrapped error with the map entry left in place; only after the switch
succeeds is the entry deleted. -/
def removeServiceInstance (env : KubeEnv) (m : InstanceMap) (id : String) :
    Outcome Unit × InstanceMap × List KubeCall :=
  match mapLookup m id with
  | none => (.fail (errNoSuchInstance id), m, [])
  | some inst =>
    if inst.ServiceID = serviceidUserProvided then
      (.ok (), mapErase m id, [])
    else if inst.ServiceID = serviceidDatabasePod then
      match deprovisionDBInstance env id inst.Namespace with
      | (.panicked msg, tr) => (.panicked msg, m, tr)
      | (.fail e, tr) => (.fail (errDeprovision id e), m, tr)
      | (.ok _, tr) => (.ok (), mapErase m id, tr)
    else
      (.ok (), mapErase m id, [])

/-- The fixed credential `Bind` manufactures for `user-provided`
instances (part_000 lines 190-193 / 441-444). -/
def uppDummyCred : Credential :=
  [("special-key-1", .str "special-value-1"),
   ("special-key-2", .str "special-value-2")]

/-- `Bind` (part_000 lines 171-206 / 422-458, second copy's credential
keys): unknown ids get `errNoSuchInstance`; a `user-provided` instance
gets the fixed dummy credential; a `database-pod` instance gets a
credential built from the pod address returned by `doDBBind`; an
instance of any other service id leaves `newCredential` nil, so the
final `*newCredential` dereference is a Go nil-pointer panic — after
the nil has already been stored in the instance's credential field.
On the non-error paths the new credential is stored on the instance
(`c.instanceMap[instanceID].Credential = newCredential`) and returned. -/
def bind (env : KubeEnv) (m : InstanceMap) (instanceID bindingID : String)
    (req : BindingRequest) :
    Outcome Credential × InstanceMap × List KubeCall :=
  match mapLookup m instanceID with
  | none => (.fail (errNoSuchInstance instanceID), m, [])
  | some inst =>
    if inst.ServiceID = serviceidUserProvided then
      (.ok uppDummyCred, mapSetCred m instanceID (some uppDummyCred), [])
    else if inst.ServiceID = serviceidDatabasePod then
      match doDBBind env instanceID inst.Namespace with
      | (.panicked msg, tr) => (.panicked msg, m, tr)
      | (.fail e, tr) => (.fail e, m, tr)
      | (.ok (ip, port), tr) =>
        (.ok [("mongoInstanceIp", .str ip), ("mongoInstancePort", .int port)],
          mapSetCred m instanceID
            (some [("mongoInstanceIp", .str ip), ("mongoInstancePort", .int port)]),
          tr)
    else
      (.panicked "invalid memory address or nil pointer dereference",
        mapSetCred m instanceID none, [])

/-- `UnBind` (part_000 lines 209-227 / 463-481): unknown ids get
`errNoSuchInstance`; otherwise the per-type switch does nothing for
`user-provided`, calls the no-op `doDBUnbind` stub for `database-pod`,
and falls through for any other id; the registry is never written. -/
def unBind (m : InstanceMap) (instanceID bindingID : String) :
    Outcome Unit × InstanceMap :=
  match mapLookup m instanceID with
  | none => (.fail (errNoSuchInstance instanceID), m)
  | some inst =>
    if inst.ServiceID = serviceidUserProvided then
      (.ok (), m)
    else if inst.ServiceID = serviceidDatabasePod then
      (.ok (), m)
    else
      (.ok (), m)

/-- An environment in which every outbound cluster call succeeds; the
pod-list query finds the instance pod at a fixed address. -/
def okEnv : KubeEnv where
  inClusterConfig := .ok ()
  newForConfig := .ok ()
  secretCreate := fun _ _ => .ok ()
  podCreate := fun _ _ => .ok ()
  secretDelete := fun _ _ => .ok ()
  podsDeleteCollection := fun _ _ => .ok ()
  secretsDeleteCollection := fun _ _ => .ok ()
  podsList := fun _ _ => .ok [{ podIP := "10.1.2.3", containerPort := 27017 }]

/-! ## Registry lemmas -/

theorem mapLookup_insert_self (m : InstanceMap) (id : String) (v : ServiceInstance) :
    mapLookup (mapInsert m id v) id = some v := by
  simp [mapInsert, mapLookup]

theorem mapLookup_erase_self (m : InstanceMap) (id : String) :
    mapLookup (mapErase m id) id = none := by
  induction m with
  | nil => rfl
  | cons hd t ih =>
    obtain ⟨k, v⟩ := hd
    by_cases h : k = id
    · simp [mapErase, h, ih]
    · simp [mapErase, mapLookup, h, ih]

theorem mapLookup_setCred_ne (m : InstanceMap) (id j : String) (c : Option Credential)
    (h : j ≠ id) : mapLookup (mapSetCred m id c) j = mapLookup m j := by
  induction m with
  | nil => rfl
  | cons hd t ih =>
    obtain ⟨k, v⟩ := hd
    by_cases hk : k = id
    · subst hk
      have hkj : k ≠ j := fun he => h he.symm
      simp [mapSetCred, mapLookup, hkj]
    · simp [mapSetCred, mapLookup, hk, ih]

theorem mapLookup_setCred_self (m : InstanceMap) (id : String) (c : Option Credential)
    (v : ServiceInstance) (h : mapLookup m id = some v) :
    mapLookup (mapSetCred m id c) id = some { v with Credential := c } := by
  induction m with
  | nil => simp [mapLookup] at h
  | cons hd t ih =>
    obtain ⟨k, w⟩ := hd
    by_cases hk : k = id
    · subst hk
      simp [mapLookup] at h
      subst h
      simp [mapSetCred, mapLookup]
    · simp [mapLookup, hk] at h
      simp [mapSetCred, mapLookup, hk, ih h]

/-- A successful create was on a fresh id and inserted exactly the new
record (with no credential) into the registry. -/
theorem create_ok_insert (env : KubeEnv) (m m1 : InstanceMap) (id : String)
    (req : CreateServiceInstanceRequest) (tr : List KubeCall)
    (h : createServiceInstance env m id req = (.ok (), m1, tr)) :
    mapLookup m id = none ∧
    m1 = mapInsert m id
      { Id := id
        Namespace := req.ContextProfile.Namespace
        ServiceID := req.ServiceID
        Credential := none } := by
  unfold createServiceInstance at h
  split at h
  · simp at h
  · rename_i hnone
    refine ⟨hnone, ?_⟩
    dsimp only at h
    split at h
    · simp at h
      exact h.1.symm
    · split at h
      · split at h
        · simp at h
        · simp at h
        · simp at h
          exact h.1.symm
      · simp at h
        exact h.1.symm

/-! ## Claim theorems -/

/-- C1: the specific rollback scenario of the claim does hold — when the
secret is created and the pod creation fails, create surfaces the error,
the registry stays empty, and the rollback deletes the secret after the
failed pod creation — but the general clause "whenever any provisioning
step fails the registry entry is not written" is violated by the code:
`provisionDBInstance` returns `("", nil)` when the SECRET creation
fails (controller_pod.go line 34), so `CreateServiceInstance` sees no
error and records the instance.  This theorem evaluates both runs. -/
theorem create_db_secret_failure_swallowed :
    createServiceInstance
        { okEnv with podCreate := fun _ _ => Except.error "pods is forbidden" }
        [] "db-1" ⟨serviceidDatabasePod, ⟨"test-ns"⟩⟩ =
      (.fail "pods is forbidden", [],
        [.secretCreate "test-ns" "db-db-1-secret",
         .podCreate "test-ns" "mongo-db-1",
         .secretDelete "test-ns" "db-db-1-secret"]) ∧
    createServiceInstance
        { okEnv with secretCreate := fun _ _ => Except.error "secrets is forbidden" }
        [] "db-1" ⟨serviceidDatabasePod, ⟨"test-ns"⟩⟩ =
      (.ok (),
        [("db-1",
          { Id := "db-1"
            Namespace := "test-ns"
            ServiceID := serviceidDatabasePod
            Credential := none })],
        [.secretCreate "test-ns" "db-db-1-secret"]) :=
  ⟨rfl, rfl⟩

/-- C2: a second `CreateServiceInstance` on an id whose first create
succeeded fails with the already-exists error and returns the registry
unchanged — in particular every field of the original instance's entry
is exactly as before the second call. -/
theorem create_duplicate_rejected (env env' : KubeEnv) (m m1 : InstanceMap)
    (id : String) (req req' : CreateServiceInstanceRequest) (tr : List KubeCall)
    (h : createServiceInstance env m id req = (.ok (), m1, tr)) :
    createServiceInstance env' m1 id req' = (.fail (errAlreadyExists id), m1, []) := by
  obtain ⟨-, hm1⟩ := create_ok_insert env m m1 id req tr h
  have hl : mapLookup m1 id = some
      { Id := id
        Namespace := req.ContextProfile.Namespace
        ServiceID := req.ServiceID
        Credential := none } := by
    rw [hm1]; exact mapLookup_insert_self ..
  unfold createServiceInstance
  rw [hl]

theorem create_duplicate_rejected_witness :
    createServiceInstance okEnv
        [("svc-1", { Id := "svc-1", Namespace := "ns",
                     ServiceID := serviceidUserProvided, Credential := none })]
        "svc-1" ⟨serviceidUserProvided, ⟨"ns"⟩⟩ =
      (.fail (errAlreadyExists "svc-1"),
        [("svc-1", { Id := "svc-1", Namespace := "ns",
                     ServiceID := serviceidUserProvided, Credential := none })],
        []) :=
  create_duplicate_rejected okEnv okEnv [] _ "svc-1"
    ⟨serviceidUserProvided, ⟨"ns"⟩⟩ ⟨serviceidUserProvided, ⟨"ns"⟩⟩ [] rfl

/-- C3: on a registered database-pod instance, a remove whose teardown
fails returns the wrapped deprovision error and leaves the registry —
hence the instance's entry — exactly as it was; a later remove whose
teardown succeeds deletes the entry and returns success, after which the
id resolves to nothing. -/
theorem remove_teardown_ordering (envF envS : KubeEnv) (m : InstanceMap)
    (id : String) (inst : ServiceInstance) (e : GoErr) (trF trS : List KubeCall)
    (hl : mapLookup m id = some inst)
    (hdb : inst.ServiceID = serviceidDatabasePod)
    (hf : deprovisionDBInstance envF id inst.Namespace = (.fail e, trF))
    (hs : deprovisionDBInstance envS id inst.Namespace = (.ok (), trS)) :
    removeServiceInstance envF m id = (.fail (errDeprovision id e), m, trF) ∧
    removeServiceInstance envS m id = (.ok (), mapErase m id, trS) ∧
    mapLookup (mapErase m id) id = none := by
  have hnu : inst.ServiceID ≠ serviceidUserProvided := by
    rw [hdb]; decide
  refine ⟨?_, ?_, mapLookup_erase_self m id⟩
  · unfold removeServiceInstance
    rw [hl]
    simp only [if_neg hnu, if_pos hdb, hf]
  · unfold removeServiceInstance
    rw [hl]
    simp only [if_neg hnu, if_pos hdb, hs]

theorem remove_teardown_ordering_witness :
    removeServiceInstance
        { okEnv with podsDeleteCollection := fun _ _ => Except.error "pods is forbidden" }
        [("db-1", { Id := "db-1", Namespace := "ns",
                    ServiceID := serviceidDatabasePod, Credential := none })]
        "db-1" =
      (.fail (errDeprovision "db-1" "pods is forbidden"),
        [("db-1", { Id := "db-1", Namespace := "ns",
                    ServiceID := serviceidDatabasePod, Credential := none })],
        [.podsDeleteCollection "ns" "instanceId=db-1"]) ∧
    removeServiceInstance okEnv
        [("db-1", { Id := "db-1", Namespace := "ns",
                    ServiceID := serviceidDatabasePod, Credential := none })]
        "db-1" =
      (.ok (), [],
        [.podsDeleteCollection "ns" "instanceId=db-1",
         .secretsDeleteCollection "ns" "instanceId=db-1"]) := by
  have h := remove_teardown_ordering
    { okEnv with podsDeleteCollection := fun _ _ => Except.error "pods is forbidden" }
    okEnv
    [("db-1", { Id := "db-1", Namespace := "ns",
                ServiceID := serviceidDatabasePod, Credential := none })]
    "db-1"
    { Id := "db-1", Namespace := "ns",
      ServiceID := serviceidDatabasePod, Credential := none }
    "pods is forbidden"
    [.podsDeleteCollection "ns" "instanceId=db-1"]
    [.podsDeleteCollection "ns" "instanceId=db-1",
     .secretsDeleteCollection "ns" "instanceId=db-1"]
    rfl rfl rfl rfl
  exact ⟨h.1, h.2.1⟩

/-- C5 counterexample: creating `"svc-1"` of type user-provided with no
parameters succeeds, but the stored instance record carries NO
credential — not the placeholder credential map the claim says is
stored at creation (in this controller a credential only appears on the
record when `Bind` runs). -/
theorem create_user_provided_stores_no_credential :
    mapLookup
        (createServiceInstance okEnv [] "svc-1" ⟨serviceidUserProvided, ⟨"ns"⟩⟩).2.1
        "svc-1" =
      some { Id := "svc-1", Namespace := "ns",
             ServiceID := serviceidUserProvided, Credential := none } ∧
    ({ Id := "svc-1", Namespace := "ns",
       ServiceID := serviceidUserProvided, Credential := none } :
        ServiceInstance).Credential ≠ some uppDummyCred :=
  ⟨rfl, by decide⟩

/-- C5 (amended): creating `"svc-1"` of type user-provided with no
parameters succeeds and stores an instance record WITHOUT a credential
(the placeholder credential is produced by `Bind`, not by create);
`GetServiceInstance "svc-1"` returns that record; after
`RemoveServiceInstance "svc-1"` succeeds, `GetServiceInstance "svc-1"`
returns the no-such-instance (NotFound) error. -/
theorem scenario_user_provided_lifecycle :
    createServiceInstance okEnv [] "svc-1" ⟨serviceidUserProvided, ⟨"ns"⟩⟩ =
      (.ok (),
        [("svc-1", { Id := "svc-1", Namespace := "ns",
                     ServiceID := serviceidUserProvided, Credential := none })],
        []) ∧
    getServiceInstance
        [("svc-1", { Id := "svc-1", Namespace := "ns",
                     ServiceID := serviceidUserProvided, Credential := none })]
        "svc-1" =
      (.ok { Id := "svc-1", Namespace := "ns",
             ServiceID := serviceidUserProvided, Credential := none },
        [("svc-1", { Id := "svc-1", Namespace := "ns",
                     ServiceID := serviceidUserProvided, Credential := none })]) ∧
    removeServiceInstance okEnv
        [("svc-1", { Id := "svc-1", Namespace := "ns",
                     ServiceID := serviceidUserProvided, Credential := none })]
        "svc-1" =
      (.ok (), [], []) ∧
    getServiceInstance [] "svc-1" = (.fail (errNoSuchInstance "svc-1"), []) :=
  ⟨rfl, rfl, rfl, rfl⟩

/-- C6: creating a database-pod instance under a fresh id with an empty
namespace fails with the missing-namespace (InvalidRequest) error,
performs no secret or pod creation call (the call trace is empty), and
writes no registry entry (the registry is returned unchanged, still
without the id).  The kube-client retrieval, which the code performs
before validating the namespace, is assumed to succeed. -/
theorem create_db_empty_namespace (env : KubeEnv) (m : InstanceMap) (id : String)
    (hc : env.inClusterConfig = Except.ok ())
    (hn : env.newForConfig = Except.ok ())
    (hfresh : mapLookup m id = none) :
    createServiceInstance env m id ⟨serviceidDatabasePod, ⟨""⟩⟩ =
      (.fail "Namespace not detected in Request", m, []) := by
  unfold createServiceInstance
  rw [hfresh]
  dsimp only
  rw [if_neg (by decide : serviceidDatabasePod ≠ serviceidUserProvided),
    if_pos rfl]
  unfold provisionDBInstance getKubeClient
  rw [hc, hn]
  rfl

theorem create_db_empty_namespace_witness :
    createServiceInstance okEnv [] "db-1" ⟨serviceidDatabasePod, ⟨""⟩⟩ =
      (.fail "Namespace not detected in Request", [], []) :=
  create_db_empty_namespace okEnv [] "db-1" rfl rfl rfl

/-- C7: on an id absent from the registry, `GetServiceInstance`,
`Bind`, `UnBind` and `RemoveServiceInstance` each return the
no-such-instance (NotFound) error, and each returns the registry
unchanged, performing no outbound call. -/
theorem notfound_on_unknown_id (env : KubeEnv) (m : InstanceMap) (id b : String)
    (req : BindingRequest) (hab : mapLookup m id = none) :
    getServiceInstance m id = (.fail (errNoSuchInstance id), m) ∧
    bind env m id b req = (.fail (errNoSuchInstance id), m, []) ∧
    unBind m id b = (.fail (errNoSuchInstance id), m) ∧
    removeServiceInstance env m id = (.fail (errNoSuchInstance id), m, []) := by
  refine ⟨?_, ?_, ?_, ?_⟩
  · unfold getServiceInstance; rw [hab]
  · unfold bind; rw [hab]
  · unfold unBind; rw [hab]
  · unfold removeServiceInstance; rw [hab]

theorem notfound_on_unknown_id_witness :
    getServiceInstance [] "ghost" = (.fail (errNoSuchInstance "ghost"), []) ∧
    bind okEnv [] "ghost" "b" ⟨⟩ = (.fail (errNoSuchInstance "ghost"), [], []) ∧
    unBind [] "ghost" "b" = (.fail (errNoSuchInstance "ghost"), []) ∧
    removeServiceInstance okEnv [] "ghost" =
      (.fail (errNoSuchInstance "ghost"), [], []) :=
  notfound_on_unknown_id okEnv [] "ghost" "b" ⟨⟩ rfl

/-- C10: the type-dispatch switch in `CreateServiceInstance` has no
default error case, so a create under a fresh id whose service id is
neither the user-provided id nor the database-pod id performs no
provisioning call (empty call trace), succeeds, and inserts a record
carrying that service id and no credential. -/
theorem create_unknown_type_accepted (env : KubeEnv) (m : InstanceMap)
    (id : String) (req : CreateServiceInstanceRequest)
    (hfresh : mapLookup m id = none)
    (h1 : req.ServiceID ≠ serviceidUserProvided)
    (h2 : req.ServiceID ≠ serviceidDatabasePod) :
    createServiceInstance env m id req =
      (.ok (),
        mapInsert m id
          { Id := id
            Namespace := req.ContextProfile.Namespace
            ServiceID := req.ServiceID
            Credential := none },
        []) := by
  unfold createServiceInstance
  rw [hfresh]
  dsimp only
  rw [if_neg h1, if_neg h2]

theorem create_unknown_type_accepted_witness :
    createServiceInstance okEnv [] "x-1" ⟨"mystery-service", ⟨"ns"⟩⟩ =
      (.ok (),
        mapInsert [] "x-1"
          { Id := "x-1", Namespace := "ns",
            ServiceID := "mystery-service", Credential := none },
        []) :=
  create_unknown_type_accepted okEnv [] "x-1" ⟨"mystery-service", ⟨"ns"⟩⟩
    rfl (by decide) (by decide)

/-- C4 counterexample: after creating `"svc-1"` of type user-provided,
the registry record carries no credential at all — nothing was captured
at creation — yet `Bind` returns the fixed placeholder credential map,
so its return value is not "the credential captured at creation time". -/
theorem bind_not_creation_credential :
    createServiceInstance okEnv [] "svc-1" ⟨serviceidUserProvided, ⟨"ns"⟩⟩ =
      (.ok (),
        [("svc-1", { Id := "svc-1", Namespace := "ns",
                     ServiceID := serviceidUserProvided, Credential := none })],
        []) ∧
    (bind okEnv
        [("svc-1", { Id := "svc-1", Namespace := "ns",
                     ServiceID := serviceidUserProvided, Credential := none })]
        "svc-1" "b-1" ⟨⟩).1 = .ok uppDummyCred ∧
    ({ Id := "svc-1", Namespace := "ns",
       ServiceID := serviceidUserProvided, Credential := none } :
        ServiceInstance).Credential ≠ some uppDummyCred :=
  ⟨rfl, rfl, by decide⟩

/-- C4 (amended): `Bind` on a registered user-provided instance returns
the fixed placeholder credential map (create stores no credential to
return) and overwrites the stored credential with that map; a second
`Bind` on the resulting state returns the identical credential map. -/
theorem bind_user_provided_fixed_credential (env env' : KubeEnv) (m : InstanceMap)
    (i b b' : String) (req req' : BindingRequest) (inst : ServiceInstance)
    (hl : mapLookup m i = some inst)
    (hu : inst.ServiceID = serviceidUserProvided) :
    bind env m i b req =
      (.ok uppDummyCred, mapSetCred m i (some uppDummyCred), []) ∧
    (bind env' (mapSetCred m i (some uppDummyCred)) i b' req').1 =
      .ok uppDummyCred := by
  constructor
  · unfold bind
    rw [hl]
    dsimp only
    rw [if_pos hu]
  · have hl2 := mapLookup_setCred_self m i (some uppDummyCred) inst hl
    unfold bind
    rw [hl2]
    dsimp only
    rw [if_pos hu]

theorem bind_user_provided_fixed_credential_witness :
    bind okEnv
        [("svc-1", { Id := "svc-1", Namespace := "ns",
                     ServiceID := serviceidUserProvided, Credential := none })]
        "svc-1" "b-1" ⟨⟩ =
      (.ok uppDummyCred,
        mapSetCred
          [("svc-1", { Id := "svc-1", Namespace := "ns",
                       ServiceID := serviceidUserProvided, Credential := none })]
          "svc-1" (some uppDummyCred),
        []) ∧
    (bind okEnv
        (mapSetCred
          [("svc-1", { Id := "svc-1", Namespace := "ns",
                       ServiceID := serviceidUserProvided, Credential := none })]
          "svc-1" (some uppDummyCred))
        "svc-1" "b-2" ⟨⟩).1 = .ok uppDummyCred :=
  bind_user_provided_fixed_credential okEnv okEnv
    [("svc-1", { Id := "svc-1", Namespace := "ns",
                 ServiceID := serviceidUserProvided, Credential := none })]
    "svc-1" "b-1" "b-2" ⟨⟩ ⟨⟩
    { Id := "svc-1", Namespace := "ns",
      ServiceID := serviceidUserProvided, Credential := none }
    rfl rfl

/-- `GetServiceInstance` returns the registry unchanged. -/
theorem getServiceInstance_snd (m : InstanceMap) (id : String) :
    (getServiceInstance m id).2 = m := by
  unfold getServiceInstance
  split <;> rfl

/-- `UnBind` returns the registry unchanged in every branch. -/
theorem unBind_snd (m : InstanceMap) (i b : String) : (unBind m i b).2 = m := by
  unfold unBind
  split
  · rfl
  · split
    · rfl
    · split <;> rfl

/-- C9: a successful `Bind` changes the registry only at the bound id
and only in its credential field — every other entry is untouched, and
the bound entry keeps its Id, Namespace and ServiceID, with the
credential overwritten by the returned one; `GetServiceInstance` and
`UnBind` return the registry (credentials included) entirely
unchanged. -/
theorem bind_frame (env : KubeEnv) (m m' : InstanceMap) (i b : String)
    (req : BindingRequest) (cred : Credential) (tr : List KubeCall)
    (h : bind env m i b req = (.ok cred, m', tr)) :
    (∀ j, j ≠ i → mapLookup m' j = mapLookup m j) ∧
    (∀ inst, mapLookup m i = some inst →
      mapLookup m' i = some { inst with Credential := some cred }) ∧
    (∀ m2 id2, (getServiceInstance m2 id2).2 = m2) ∧
    (∀ m2 id2 b2, (unBind m2 id2 b2).2 = m2) := by
  have hm' : m' = mapSetCred m i (some cred) := by
    unfold bind at h
    split at h
    · simp at h
    · split at h
      · simp at h
        obtain ⟨hcred, hm, -⟩ := h
        rw [← hm, ← hcred]
      · split at h
        · split at h
          · simp at h
          · simp at h
          · simp at h
            obtain ⟨hcred, hm, -⟩ := h
            rw [← hm, ← hcred]
        · simp at h
  subst hm'
  refine ⟨?_, ?_, getServiceInstance_snd, unBind_snd⟩
  · intro j hj
    exact mapLookup_setCred_ne m i j _ hj
  · intro inst hinst
    exact mapLookup_setCred_self m i _ inst hinst

theorem bind_frame_witness :
    mapLookup
        (mapSetCred
          [("svc-1", { Id := "svc-1", Namespace := "ns",
                       ServiceID := serviceidUserProvided, Credential := none }),
           ("o-1", { Id := "o-1", Namespace := "ns2",
                     ServiceID := serviceidUserProvided, Credential := none })]
          "svc-1" (some uppDummyCred))
        "o-1" =
      mapLookup
        [("svc-1", { Id := "svc-1", Namespace := "ns",
                     ServiceID := serviceidUserProvided, Credential := none }),
         ("o-1", { Id := "o-1", Namespace := "ns2",
                   ServiceID := serviceidUserProvided, Credential := none })]
        "o-1" :=
  (bind_frame okEnv
    [("svc-1", { Id := "svc-1", Namespace := "ns",
                 ServiceID := serviceidUserProvided, Credential := none }),
     ("o-1", { Id := "o-1", Namespace := "ns2",
               ServiceID := serviceidUserProvided, Credential := none })]
    (mapSetCred
      [("svc-1", { Id := "svc-1", Namespace := "ns",
                   ServiceID := serviceidUserProvided, Credential := none }),
       ("o-1", { Id := "o-1", Namespace := "ns2",
                 ServiceID := serviceidUserProvided, Credential := none })]
      "svc-1" (some uppDummyCred))
    "svc-1" "b" ⟨⟩ uppDummyCred [] rfl).1 "o-1" (by decide)

/-- `getKubeClient` cannot panic when the in-cluster config call
succeeds. -/
theorem getKubeClient_no_panic (env : KubeEnv)
    (hc : env.inClusterConfig = Except.ok ()) :
    (getKubeClient env).isPanicked = false := by
  unfold getKubeClient
  rw [hc]
  cases hn : env.newForConfig <;> rfl

/-- `provisionDBInstance` cannot panic when the in-cluster config call
succeeds. -/
theorem provisionDBInstance_no_panic (env : KubeEnv) (id ns : String)
    (hc : env.inClusterConfig = Except.ok ()) :
    (provisionDBInstance env id ns).1.isPanicked = false := by
  unfold provisionDBInstance
  split
  · rename_i msg heq
    have hnp := getKubeClient_no_panic env hc
    rw [heq] at hnp
    simp [Outcome.isPanicked] at hnp
  · rfl
  · split
    · rfl
    · split
      · rfl
      · split <;> rfl

/-- `deprovisionDBInstance` cannot panic when the in-cluster config
call succeeds. -/
theorem deprovisionDBInstance_no_panic (env : KubeEnv) (id ns : String)
    (hc : env.inClusterConfig = Except.ok ()) :
    (deprovisionDBInstance env id ns).1.isPanicked = false := by
  unfold deprovisionDBInstance
  split
  · rename_i msg heq
    have hnp := getKubeClient_no_panic env hc
    rw [heq] at hnp
    simp [Outcome.isPanicked] at hnp
  · rfl
  · split
    · rfl
    · split <;> rfl

/-- `doDBBind` cannot panic when the in-cluster config call succeeds
and no successful pod-list query returns an empty list. -/
theorem doDBBind_no_panic (env : KubeEnv) (id ns : String)
    (hc : env.inClusterConfig = Except.ok ())
    (hp : ∀ ns2 sel l, env.podsList ns2 sel = Except.ok l → l ≠ []) :
    (doDBBind env id ns).1.isPanicked = false := by
  unfold doDBBind
  split
  · rename_i msg heq
    have hnp := getKubeClient_no_panic env hc
    rw [heq] at hnp
    simp [Outcome.isPanicked] at hnp
  · rfl
  · split
    · rfl
    · rename_i heq
      exact absurd rfl (hp ns (instLabelSelector id) [] heq)
    · rfl

/-- C8 counterexample: a `CreateServiceInstance` of a database-pod
instance when the in-cluster config cannot be retrieved does not return
an error — `getKubeClient` panics with the config error
(controller_pod.go line 89), so the operation's outcome is a panic. -/
theorem create_db_panics_without_cluster_config :
    createServiceInstance
        { okEnv with
            inClusterConfig := Except.error "unable to load in-cluster configuration" }
        [] "db-1" ⟨serviceidDatabasePod, ⟨"ns"⟩⟩ =
      (.panicked "unable to load in-cluster configuration", [], []) :=
  rfl

/-- C8 (amended): every controller operation returns a result or an
error — no panic — provided the in-cluster config is retrievable (its
failure makes `getKubeClient` panic), no successful pod-list query
returns an empty list (`Items[0]` on an empty list panics inside
`Bind`'s address query), and, for `Bind`, the target instance's service
type is one of the two recognized ids (an unrecognized id leaves
`Bind`'s credential pointer nil and the final dereference panics). -/
theorem no_panics_under_assumptions (env : KubeEnv) (m : InstanceMap)
    (id b : String) (creq : CreateServiceInstanceRequest) (breq : BindingRequest)
    (hc : env.inClusterConfig = Except.ok ())
    (hp : ∀ ns sel l, env.podsList ns sel = Except.ok l → l ≠ []) :
    catalog.isPanicked = false ∧
    (createServiceInstance env m id creq).1.isPanicked = false ∧
    (getServiceInstance m id).1.isPanicked = false ∧
    (removeServiceInstance env m id).1.isPanicked = false ∧
    (unBind m id b).1.isPanicked = false ∧
    ((∀ inst, mapLookup m id = some inst →
        inst.ServiceID = serviceidUserProvided ∨
        inst.ServiceID = serviceidDatabasePod) →
      (bind env m id b breq).1.isPanicked = false) := by
  refine ⟨rfl, ?_, ?_, ?_, ?_, ?_⟩
  · unfold createServiceInstance
    split
    · rfl
    · dsimp only
      split
      · rfl
      · split
        · split
          · rename_i heq
            have hnp := provisionDBInstance_no_panic env id
              creq.ContextProfile.Namespace hc
            rw [heq] at hnp
            simp [Outcome.isPanicked] at hnp
          · rfl
          · rfl
        · rfl
  · unfold getServiceInstance
    split <;> rfl
  · unfold removeServiceInstance
    split
    · rfl
    · rename_i inst hinst
      split
      · rfl
      · split
        · split
          · rename_i heq
            have hnp := deprovisionDBInstance_no_panic env id inst.Namespace hc
            rw [heq] at hnp
            simp [Outcome.isPanicked] at hnp
          · rfl
          · rfl
        · rfl
  · unfold unBind
    split
    · rfl
    · split
      · rfl
      · split <;> rfl
  · intro hknown
    unfold bind
    split
    · rfl
    · rename_i inst hinst
      split
      · rfl
      · split
        · split
          · rename_i heq
            have hnp := doDBBind_no_panic env id inst.Namespace hc hp
            rw [heq] at hnp
            simp [Outcome.isPanicked] at hnp
          · rfl
          · rfl
        · rename_i h1 h2
          rcases hknown inst hinst with hk | hk
          · exact absurd hk h1
          · exact absurd hk h2

theorem no_panics_under_assumptions_witness :
    (createServiceInstance okEnv [] "db-1"
        ⟨serviceidDatabasePod, ⟨"ns"⟩⟩).1.isPanicked = false :=
  (no_panics_under_assumptions okEnv [] "db-1" "b"
    ⟨serviceidDatabasePod, ⟨"ns"⟩⟩ ⟨⟩ rfl
    (by
      intro ns sel l h
      injection h with h'
      subst h'
      decide)).2.1

end ServiceCatalogCtrl
